import Mathlib

/-!
Verification development for the sun-calculation module of the bodriagin_bot
repository (`handlers/sun_calc.py`).

The module is shallowly embedded: pure Python functions become Lean functions,
external libraries (geopy, timezonefinder, skyfield, astral, zoneinfo) become
explicit oracle parameters collected in an `Env` record, instants are modelled
as integers (microseconds since the Unix epoch), and Python exceptions that can
escape a function become `Except` results.  Every library call the source wraps
in `try/except` is modelled by an `Option`-valued oracle: the exception branch
and the "no result" branch of the source coincide observationally, both
yielding the absent value.
-/

namespace SunCalc

/-- Microseconds in one day. -/
def dayU : Int := 86400000000

/-! ## Python string primitives

The source normalizes city strings with `city.strip().lower()`.  We model
`str.strip` as dropping the ASCII whitespace characters Python strips (the
full set of Unicode whitespace is irrelevant to the program's constants) and
`str.lower` on the Latin and Cyrillic letters, which are the alphabets the
program's sentinel constants ("неизвестно", "unknown", "n/a") and inputs use.
-/

/-- Characters Python's `str.strip()` removes (ASCII subset). -/
def isPyWs (c : Char) : Bool :=
  c.toNat = 32 || c.toNat = 9 || c.toNat = 10 || c.toNat = 11 || c.toNat = 12 || c.toNat = 13

/-- Python `str.lower()` on one character, for the Latin A-Z and Cyrillic А-Я/Ё
ranges (identity elsewhere). -/
def pyLowerChar (c : Char) : Char :=
  if 65 ≤ c.toNat ∧ c.toNat ≤ 90 then Char.ofNat (c.toNat + 32)
  else if 1040 ≤ c.toNat ∧ c.toNat ≤ 1071 then Char.ofNat (c.toNat + 32)
  else if c.toNat = 1025 then Char.ofNat 1105
  else c

/-- Drop trailing whitespace, as the second half of Python `str.strip()`. -/
def dropTrailingWs (l : List Char) : List Char :=
  (l.reverse.dropWhile isPyWs).reverse

/-- Python `str.strip()` on a character list. -/
def stripList (l : List Char) : List Char :=
  dropTrailingWs (l.dropWhile isPyWs)

/-- Cache-key normalization used by `geocode_city`: `city.strip().lower()`. -/
def pyKey (s : String) : String :=
  ⟨(stripList s.data).map pyLowerChar⟩

/-- Sentinel test from `geocode_city` line 79:
`if not city or city.strip().lower() in ("неизвестно", "unknown", "n/a")`. -/
def isSentinelCity (city : String) : Bool :=
  city = "" || pyKey city = "неизвестно" || pyKey city = "unknown" || pyKey city = "n/a"

/-! ## Python int parsing and date/time parsing

`check_birth_city_dawn` parses with `d, m, y = map(int, s.split("."))` and
`hh, mm = map(int, s.split(":"))`; any exception (wrong number of fields or a
field `int()` rejects) is caught and reported as invalid input.  `int()` is
modelled as: strip whitespace, optional sign, then a nonempty digit string
(Python's underscore-between-digits extension is not modelled; no claim
depends on it). -/

/-- Split a character list on a single separator character, like Python
`str.split(sep)` for a one-character separator. -/
def splitOnCh (sep : Char) : List Char → List (List Char)
  | [] => [[]]
  | c :: rest =>
    let r := splitOnCh sep rest
    if c = sep then [] :: r
    else match r with
      | [] => [[c]]
      | h :: t => (c :: h) :: t

/-- Numeric value of a digit list. -/
def digitsVal (l : List Char) : Nat :=
  l.foldl (fun a c => a * 10 + (c.toNat - 48)) 0

/-- Python `int(s)` on a string fragment: `some n` on success, `none` when
`int` would raise `ValueError`. -/
def pyInt (l : List Char) : Option Int :=
  match stripList l with
  | [] => none
  | c :: rest =>
    if c = '-' then
      if rest ≠ [] ∧ rest.all (·.isDigit) then some (-(digitsVal rest : Int)) else none
    else if c = '+' then
      if rest ≠ [] ∧ rest.all (·.isDigit) then some (digitsVal rest : Int) else none
    else
      if (c :: rest).all (·.isDigit) then some (digitsVal (c :: rest) : Int) else none

/-- Parse `birth_date_str` via `d, m, y = map(int, birth_date_str.split("."))`;
`none` models the caught exception. -/
def parseDateTriple (s : String) : Option (Int × Int × Int) :=
  match (splitOnCh '.' s.data).map pyInt with
  | [some d, some m, some y] => some (d, m, y)
  | _ => none

/-- Parse `birth_time_str` via `hh, mm = map(int, birth_time_str.split(":"))`;
`none` models the caught exception. -/
def parseTimePair (s : String) : Option (Int × Int) :=
  match (splitOnCh ':' s.data).map pyInt with
  | [some hh, some mm] => some (hh, mm)
  | _ => none

/-! ## Calendar model

`datetime.datetime(y, m, d, hh, mm)` and `datetime.date(y, m, d)` raise
`ValueError` outside the validity ranges below; a valid date is mapped to its
proleptic-Gregorian day number (days since 1970-01-01, the standard
days-from-civil computation), matching the ordering and day arithmetic of
Python's `datetime`. -/

/-- Gregorian leap-year rule (Python `calendar`/`datetime` semantics; Int `%`
is Euclidean, agreeing with Python `%` here). -/
def isLeap (y : Int) : Bool :=
  y % 4 = 0 && (y % 100 ≠ 0 || y % 400 = 0)

/-- Days in a month, as `datetime` validates them. -/
def daysInMonth (y m : Int) : Int :=
  if m = 2 then (if isLeap y then 29 else 28)
  else if m = 4 ∨ m = 6 ∨ m = 9 ∨ m = 11 then 30
  else 31

/-- Validity condition `datetime.date(y, m, d)` enforces (`MINYEAR = 1`,
`MAXYEAR = 9999`). -/
abbrev isValidYMD (y m d : Int) : Prop :=
  1 ≤ y ∧ y ≤ 9999 ∧ 1 ≤ m ∧ m ≤ 12 ∧ 1 ≤ d ∧ d ≤ daysInMonth y m

/-- Validity condition `datetime.datetime` enforces on the hour and minute. -/
abbrev isValidHM (hh mm : Int) : Prop :=
  0 ≤ hh ∧ hh ≤ 23 ∧ 0 ≤ mm ∧ mm ≤ 59

/-- Day number of a Gregorian date counted from 1970-01-01 (days-from-civil). -/
def daysFromCivil (y m d : Int) : Int :=
  let yAdj := if m ≤ 2 then y - 1 else y
  let era := Int.fdiv yAdj 400
  let yoe := yAdj - era * 400
  let mp := (m + 9) % 12
  let doy := Int.fdiv (153 * mp + 2) 5 + d - 1
  let doe := yoe * 365 + Int.fdiv yoe 4 - Int.fdiv yoe 100 + doy
  era * 146097 + doe - 719468

/-- Wall-clock value (microseconds from the local-midnight epoch line) of a
parsed birth date and time, i.e. the clock fields of
`datetime(y, m, d, hh, mm)`. -/
def birthWall (y m d hh mm : Int) : Int :=
  daysFromCivil y m d * dayU + (hh * 3600 + mm * 60) * 1000000

/-! ## Geocoding (`geocode_city`, lines 74-108)

The on-disk JSON cache (`_load_cache`) is modelled as the association list the
load produced (a corrupt or missing file is the empty list), and the geopy
`Nominatim` backend as an optional oracle; `None` models `geopy` being
unavailable, and the oracle returning `none` collapses the source's "location
not found" and "geocode raised" branches, which return the same absent triple.
Cache records model JSON objects whose fields may be missing (`rec.get(k)`
yields `None` for a missing field). -/

/-- A persisted cache record: a JSON object with possibly-missing fields. -/
structure CacheRec where
  lat : Option Int
  lon : Option Int
  display_name : Option String
deriving DecidableEq, Repr

/-- First-match association-list lookup, modelling `key in cache` plus
`cache[key]`. -/
def lookupRec : List (String × CacheRec) → String → Option CacheRec
  | [], _ => none
  | (k, r) :: rest, key => if k = key then some r else lookupRec rest key

/-- Model of `cache[key] = rec`: replace an existing binding or append. -/
def insertRec : List (String × CacheRec) → String → CacheRec → List (String × CacheRec)
  | [], key, rec => [(key, rec)]
  | (k, r) :: rest, key, rec =>
    if k = key then (k, rec) :: rest else (k, r) :: insertRec rest key rec

/-- The live geocoding backend: city text to `(lat, lon, address)` or absent.
Coordinates are opaque to the program (only compared with `None`), so they are
modelled as integers. -/
def Geolocator : Type := String → Option (Int × Int × String)

/-- Embedding of `geocode_city(city, use_cache=True)`.  Returns the result
triple together with the cache state after the call (the write-through on a
successful live resolution; a failing `_save_cache` is silent and does not
change the returned triple). -/
def geocode_city (cache : List (String × CacheRec)) (geolocator : Option Geolocator)
    (city : String) (use_cache : Bool := true) :
    (Option Int × Option Int × Option String) × List (String × CacheRec) :=
  if isSentinelCity city then ((none, none, none), cache)
  else
    let key := pyKey city
    match (if use_cache then lookupRec cache key else none) with
    | some rec => ((rec.lat, rec.lon, rec.display_name), cache)
    | none =>
      match geolocator with
      | none => ((none, none, none), cache)
      | some f =>
        match f city with
        | none => ((none, none, none), cache)
        | some (la, lo, addr) =>
          ((some la, some lo, some addr), insertRec cache key ⟨some la, some lo, some addr⟩)

/-! ## Timezone resolution (`tz_from_coords`, lines 111-125) -/

/-- The timezonefinder instance: the exact polygon lookup `timezone_at` and
the distance fallback `closest_timezone_at`.  Both are `Option`-valued; an
exception raised by either is caught by the source and collapses to the
absent result, so the oracles are modelled as total. -/
structure TzFinder where
  timezone_at : Int → Int → Option String
  closest_timezone_at : Int → Int → Option String

/-- Embedding of `tz_from_coords(lat, lon)`; `tf = none` models the
timezonefinder library being unavailable.  The embedding is a total function:
the source catches every exception and returns `None`, never raising. -/
def tz_from_coords (tf : Option TzFinder) (lat lon : Int) : Option String :=
  match tf with
  | none => none
  | some f =>
    match f.timezone_at lat lon with
    | some t => some t
    | none => f.closest_timezone_at lat lon

/-! ## Local-day interval (`_local_midnight_range_utc`, lines 128-142)

ZoneInfo timezones are modelled as fixed UTC offsets per zone name (in
microseconds east of UTC); the claims under verification do not exercise DST
transitions.  A local calendar date is identified with its day number `ld`,
its local midnight having wall value `ld * dayU`. -/

/-- The zoneinfo environment: availability of the `ZoneInfo` class and the
offset each zone name denotes. -/
structure ZoneEnv where
  avail : Bool
  offset : String → Int

/-- Effective offset used when localizing: the source falls back to treating
wall times as UTC when `ZoneInfo is None`. -/
def effOffset (z : ZoneEnv) (tzname : String) : Int :=
  if z.avail then z.offset tzname else 0

/-- Embedding of `_local_midnight_range_utc(local_date, tzname)`: the UTC
instants of local `[00:00, 24:00)` of day `ld` (wall minus offset), or the
wall values read as UTC when zoneinfo is unavailable. -/
def local_midnight_range_utc (z : ZoneEnv) (ld : Int) (tzname : String) : Int × Int :=
  let startUtc := ld * dayU - effOffset z tzname
  (startUtc, startUtc + dayU)

/-! ## Skyfield dawn search (`compute_dawn_skyfield`, lines 145-263)

The skyfield library is an oracle: `risings lat lon t0 t1` is the
`(times, events)` stream of `almanac.find_discrete` over
`risings_and_settings(..., altitude_degrees=-6.0)` on `[t0, t1]` (event code 1
= rising), and `twilight lat lon t0 t1` the stream over `dark_twilight_day`
(state code 3 = civil twilight).  The source probes library call signatures
with `try/except TypeError`; which signature succeeds is a property of the
installed library version, modelled by `sig`.  In `positional` and `twilight`
modes the expanded-window `risings_and_settings` retry (line 227) raises
`TypeError`, which line 234 swallows, so only the twilight scan runs there. -/

/-- Which skyfield call signature succeeds in this environment. -/
inductive SigMode where
  | kwarg
  | positional
  | twilight
deriving DecidableEq, Repr

/-- The skyfield environment: library availability, ephemeris-load success,
call-signature behaviour, and the two discrete-event streams. -/
structure SkyEnv where
  avail : Bool
  ephOk : Bool
  sig : SigMode
  risings : Int → Int → Int → Int → List (Int × Int)
  twilight : Int → Int → Int → Int → List (Int × Int)

/-- First event of a `(time, event)` stream whose code is 1 (a rising), as
the `for t, ev in zip(times, events): if int(ev) == 1: return ...` loops. -/
def firstRising : List (Int × Int) → Option Int
  | [] => none
  | (t, ev) :: rest => if ev = 1 then some t else firstRising rest

/-- First transition into twilight state 3, as the `prev_state` loops over
`dark_twilight_day` events (the first event only seeds `prev_state`). -/
def firstCivilTransition : Option Int → List (Int × Int) → Option Int
  | _, [] => none
  | none, (_, ev) :: rest => firstCivilTransition (some ev) rest
  | some prev, (t, ev) :: rest =>
    if ev = 3 ∧ prev ≠ 3 then some t else firstCivilTransition (some ev) rest

/-- Midnight UTC of the UTC day containing `t`: the source widens the window
with `ts.utc((dt ± timedelta(days=1)).year, .month, .day, 0, 0, 0)`, which
truncates the shifted instant to its UTC midnight. -/
def floorDay (t : Int) : Int :=
  Int.fdiv t dayU * dayU

/-- Embedding of `compute_dawn_skyfield(lat, lon, local_date, tzname)`.
Returns the dawn instant (the returned datetime's absolute time; the source's
final `astimezone` conversion does not change the instant) or `none`.
`eph_path` only selects which ephemeris file is loaded and is absorbed into
`ephOk`. -/
def compute_dawn_skyfield (sky : SkyEnv) (z : ZoneEnv) (lat lon ld : Int)
    (tzname : String) : Option Int :=
  if ¬sky.avail then none
  else if ¬sky.ephOk then none
  else
    let r := local_midnight_range_utc z ld tzname
    let t0 := r.1
    let t1 := r.2
    let narrow :=
      match sky.sig with
      | .kwarg => firstRising (sky.risings lat lon t0 t1)
      | .positional => firstRising (sky.risings lat lon t0 t1)
      | .twilight => firstCivilTransition none (sky.twilight lat lon t0 t1)
    match narrow with
    | some t => some t
    | none =>
      let t0b := floorDay (t0 - dayU)
      let t1b := floorDay (t1 + dayU)
      let widened :=
        match sky.sig with
        | .kwarg => firstRising (sky.risings lat lon t0b t1b)
        | _ => none
      match widened with
      | some t => some t
      | none => firstCivilTransition none (sky.twilight lat lon t0b t1b)

/-- The astral fallback oracle: `(lat, lon, local day, zone offset)` to the
civil dawn instant or absent (`sun()["dawn"]`, with any raised exception
collapsed to absent by the source's handler). -/
def AstralFn : Type := Int → Int → Int → Int → Option Int

/-- Embedding of `compute_dawn_astral(lat, lon, local_date, tzname)`;
`astral = none` models the astral library being unavailable. -/
def compute_dawn_astral (astral : Option AstralFn) (z : ZoneEnv) (lat lon ld : Int)
    (tzname : String) : Option Int :=
  match astral with
  | none => none
  | some f => f lat lon ld (effOffset z tzname)

/-- The complete external environment of the module. -/
structure Env where
  cache : List (String × CacheRec)
  geolocator : Option Geolocator
  tzfinder : Option TzFinder
  zone : ZoneEnv
  sky : SkyEnv
  astral : Option AstralFn

/-- Embedding of `compute_civil_dawn(lat, lon, local_date, tzname,
prefer_skyfield)`: the skyfield path when preferred and importable (line 292
tests `load is not None`), falling back to astral when it yields nothing. -/
def compute_civil_dawn (env : Env) (lat lon ld : Int) (tzname : String)
    (prefer_skyfield : Bool := true) : Option Int :=
  if prefer_skyfield ∧ env.sky.avail then
    match compute_dawn_skyfield env.sky env.zone lat lon ld tzname with
    | some d => some d
    | none => compute_dawn_astral env.astral env.zone lat lon ld tzname
  else compute_dawn_astral env.astral env.zone lat lon ld tzname

/-! ## The dawn verdict (`was_civil_dawn_before`, lines 301-324) -/

/-- A Python `datetime` value: either naive (wall clock only) or aware (wall
clock in a zone of known offset, so denoting the instant `wall - offset`). -/
inductive PyDateTime where
  | naive (wall : Int)
  | aware (wall : Int) (offset : Int)
deriving DecidableEq, Repr

/-- Wall-clock calendar day of a datetime (`.date()` reads the clock fields). -/
def PyDateTime.wallDate : PyDateTime → Int
  | .naive w => Int.fdiv w dayU
  | .aware w _ => Int.fdiv w dayU

/-- Absolute instant an aware datetime denotes (the naive case is never
compared in the embedded code paths that reach a comparison). -/
def PyDateTime.instant : PyDateTime → Int
  | .naive w => w
  | .aware w o => w - o

/-- Core of `was_civil_dawn_before` once the birth datetime is aware: compute
dawn for the birth's calendar date and compare (`birth >= dawn`); the
aware-vs-aware comparison cannot raise, so the `except` branch returning
`(None, dawn)` is unreachable here. -/
def wasDawnCore (env : Env) (birth : PyDateTime) (lat lon : Int) (tzname : String)
    (prefer_skyfield : Bool) : Option Bool × Option Int :=
  match compute_civil_dawn env lat lon birth.wallDate tzname prefer_skyfield with
  | none => (none, none)
  | some dw => (some (decide (birth.instant ≥ dw)), some dw)

/-- Embedding of `was_civil_dawn_before(birth_local_dt, lat, lon, tzname,
prefer_skyfield)`: a naive birth datetime is localized to `tzname` when
zoneinfo is available and otherwise yields `(None, None)`. -/
def was_civil_dawn_before (env : Env) (birth : PyDateTime) (lat lon : Int)
    (tzname : String) (prefer_skyfield : Bool := true) : Option Bool × Option Int :=
  match birth with
  | .naive w =>
    if env.zone.avail then
      wasDawnCore env (.aware w (env.zone.offset tzname)) lat lon tzname prefer_skyfield
    else (none, none)
  | .aware _ _ => wasDawnCore env birth lat lon tzname prefer_skyfield

/-! ## The evaluator (`check_birth_city_dawn`, lines 328-369) -/

/-- Error values stored under the report's `"error"` key.  `invalidInput`
stands for the f-string `"Invalid date/time format: {e}"`; the other two are
the literal strings `"geocode_failed"` and `"tz_not_found"`. -/
inductive ErrCode where
  | invalidInput
  | geocodeFailed
  | tzNotFound
deriving DecidableEq, Repr

/-- Exceptions that can escape `check_birth_city_dawn`: `ValueError` from the
`datetime`/`date` constructors, and `TypeError` from comparing a naive birth
datetime with an aware dawn datetime. -/
inductive PyExn where
  | valueError
  | typeError
deriving DecidableEq, Repr

/-- The report dictionary; a key absent from the dict is `none`.  `birth_dt`
and `dawn_dt` hold the wall-clock value and the instant whose ISO rendering
the source stores. -/
structure Report where
  city : Option String := none
  lat : Option Int := none
  lon : Option Int := none
  display_name : Option String := none
  tz : Option String := none
  birth_dt : Option Int := none
  dawn_dt : Option Int := none
  was_dawn : Option Bool := none
  error : Option ErrCode := none
deriving DecidableEq, Repr

/-- Embedding of `check_birth_city_dawn(birth_date_str, birth_time_str, city,
prefer_skyfield)`.  The source order is kept: parse, geocode, timezone lookup
(`if not tzname` is Python falsiness, catching both `None` and `""`), then the
`datetime` construction — whose `ValueError` on an invalid calendar date or
time is *not* caught — then dawn computation and the comparison, which raises
`TypeError` when zoneinfo is unavailable (naive birth vs aware dawn). -/
def check_birth_city_dawn (env : Env) (birth_date_str birth_time_str city : String)
    (prefer_skyfield : Bool := true) : Except PyExn Report :=
  match parseDateTriple birth_date_str, parseTimePair birth_time_str with
  | none, _ => .ok { error := some .invalidInput }
  | some _, none => .ok { error := some .invalidInput }
  | some (d, m, y), some (hh, mm) =>
    let g := (geocode_city env.cache env.geolocator city).fst
    let la := g.1
    let lo := g.2.1
    let disp := g.2.2
    if la = none ∨ lo = none then
      .ok { city := some city, lat := la, lon := lo, display_name := disp,
            error := some .geocodeFailed }
    else
      let tzr := tz_from_coords env.tzfinder (la.getD 0) (lo.getD 0)
      if tzr = none ∨ tzr = some "" then
        .ok { city := some city, lat := la, lon := lo, display_name := disp,
              tz := tzr, error := some .tzNotFound }
      else
        if isValidYMD y m d ∧ isValidHM hh mm then
          let tzname := tzr.getD ""
          let wall := birthWall y m d hh mm
          match compute_civil_dawn env (la.getD 0) (lo.getD 0) (daysFromCivil y m d)
              tzname prefer_skyfield with
          | none =>
            .ok { city := some city, lat := la, lon := lo, display_name := disp,
                  tz := tzr, birth_dt := some wall, dawn_dt := none, was_dawn := none }
          | some dw =>
            if env.zone.avail then
              .ok { city := some city, lat := la, lon := lo, display_name := disp,
                    tz := tzr, birth_dt := some wall, dawn_dt := some dw,
                    was_dawn := some (decide (wall - env.zone.offset tzname ≥ dw)) }
            else .error .typeError
        else .error .valueError

/-! ## Concrete environments used to instantiate the theorems -/

/-- A timezone finder whose exact lookup always answers Europe/Moscow. -/
def tfPenza : TzFinder :=
  ⟨fun _ _ => some "Europe/Moscow", fun _ _ => none⟩

/-- A skyfield environment with empty event streams. -/
def skyNone : SkyEnv :=
  ⟨false, false, .kwarg, fun _ _ _ _ => [], fun _ _ _ _ => []⟩

/-- An environment with no external library available and an empty cache. -/
def envEmpty : Env where
  cache := []
  geolocator := none
  tzfinder := none
  zone := ⟨false, fun _ => 0⟩
  sky := skyNone
  astral := none

/-- An environment where "Penza" resolves from the cache, the timezone finder
answers Europe/Moscow (offset +3 h), zoneinfo is available, and no dawn
backend is available. -/
def envPenza : Env where
  cache := [("penza", ⟨some 53, some 45, some "Penza, Russia"⟩)]
  geolocator := none
  tzfinder := some tfPenza
  zone := ⟨true, fun _ => 10800000000⟩
  sky := skyNone
  astral := none

/-- Same as `envPenza` but with an astral oracle that always reports civil
dawn at instant 1000. -/
def envPenzaDawn : Env :=
  { envPenza with astral := some fun _ _ _ _ => some 1000 }

/-- An environment whose cache holds a record for "penza" that lacks both
coordinates, while the live backend would resolve the city successfully. -/
def envBrokenRec : Env where
  cache := [("penza", ⟨none, none, some "broken"⟩)]
  geolocator := some fun _ => some (53, 45, "Penza, Russia")
  tzfinder := some tfPenza
  zone := ⟨true, fun _ => 10800000000⟩
  sky := skyNone
  astral := none

/-- UTC as a fixed-offset zone environment. -/
def zoneUTC : ZoneEnv := ⟨true, fun _ => 0⟩

/-- Moscow time (+3 h) as a fixed-offset zone environment. -/
def zoneMsk : ZoneEnv := ⟨true, fun _ => 10800000000⟩

/-- A skyfield environment whose event stream is empty on the narrow
local-day window and, on the widened window, holds a single rising event ten
minutes before the local midnight that opens the requested day. -/
def skyNoFilter : SkyEnv where
  avail := true
  ephOk := true
  sig := .kwarg
  risings := fun _ _ t0 t1 =>
    if t0 = 0 ∧ t1 = dayU then []
    else if t0 = -dayU ∧ t1 = 2 * dayU then [(-600000000, 1)]
    else []
  twilight := fun _ _ _ _ => []

/-- A skyfield environment whose event stream answers only when queried with
a left bound of exactly two days before the epoch midnight, exposing which
window bounds the widened search uses. -/
def skyWindow : SkyEnv where
  avail := true
  ephOk := true
  sig := .kwarg
  risings := fun _ _ t0 _ => if t0 = -2 * dayU then [(42, 1)] else []
  twilight := fun _ _ _ _ => []

/-- Two city strings are equal up to leading/trailing whitespace and letter
case: each splits as whitespace padding around a core, and the cores agree
after character-wise lowercasing. -/
def trimCaseEquiv (s1 s2 : String) : Prop :=
  ∃ p1 t1 q1 p2 t2 q2 : List Char,
    (∀ c ∈ p1, isPyWs c = true) ∧ (∀ c ∈ q1, isPyWs c = true) ∧
    (∀ c ∈ p2, isPyWs c = true) ∧ (∀ c ∈ q2, isPyWs c = true) ∧
    s1.data = p1 ++ t1 ++ q1 ∧ s2.data = p2 ++ t2 ++ q2 ∧
    t1.map pyLowerChar = t2.map pyLowerChar

/-- Decidable equality for evaluator results. -/
instance : DecidableEq (Except PyExn Report) :=
  fun x y =>
    match x, y with
    | .ok a, .ok b => if h : a = b then isTrue (by rw [h]) else isFalse (by simp [h])
    | .error a, .error b => if h : a = b then isTrue (by rw [h]) else isFalse (by simp [h])
    | .ok _, .error _ => isFalse (by simp)
    | .error _, .ok _ => isFalse (by simp)

/-! ## Auxiliary lemmas on the string primitives -/

/-- Value of `Char.ofNat` below the surrogate range. -/
theorem char_toNat_ofNat_lt (n : Nat) (h : n < 55296) : (Char.ofNat n).toNat = n := by
  have hv : n.isValidChar := Or.inl h
  simp [Char.ofNat, hv, Char.ofNatAux, Char.toNat, UInt32.toNat, UInt32.ofNatCore]

/-- Lowercasing preserves whitespace-ness: letters are not whitespace and map
to letters, and non-letters are unchanged. -/
theorem isPyWs_pyLowerChar (c : Char) : isPyWs (pyLowerChar c) = isPyWs c := by
  unfold pyLowerChar
  split_ifs with h1 h2 h3
  · have h32 : (Char.ofNat (c.toNat + 32)).toNat = c.toNat + 32 :=
      char_toNat_ofNat_lt _ (by omega)
    have hl : isPyWs (Char.ofNat (c.toNat + 32)) = false := by
      unfold isPyWs
      rw [h32]
      simp
      omega
    have hr : isPyWs c = false := by
      unfold isPyWs
      simp
      omega
    rw [hl, hr]
  · have h32 : (Char.ofNat (c.toNat + 32)).toNat = c.toNat + 32 :=
      char_toNat_ofNat_lt _ (by omega)
    have hl : isPyWs (Char.ofNat (c.toNat + 32)) = false := by
      unfold isPyWs
      rw [h32]
      simp
      omega
    have hr : isPyWs c = false := by
      unfold isPyWs
      simp
      omega
    rw [hl, hr]
  · have h32 : (Char.ofNat 1105).toNat = 1105 := char_toNat_ofNat_lt _ (by omega)
    have hl : isPyWs (Char.ofNat 1105) = false := by
      unfold isPyWs
      rw [h32]
      simp
    have hr : isPyWs c = false := by
      unfold isPyWs
      simp
      omega
    rw [hl, hr]
  · rfl

/-- Dropping leading whitespace ignores an all-whitespace prefix. -/
theorem dropWhile_ws_append (p m : List Char) (hp : ∀ c ∈ p, isPyWs c = true) :
    (p ++ m).dropWhile isPyWs = m.dropWhile isPyWs := by
  induction p with
  | nil => rfl
  | cons c rest ih =>
    simp only [List.cons_append, List.dropWhile_cons, hp c (List.mem_cons_self c rest)]
    exact ih (fun x hx => hp x (List.mem_cons_of_mem c hx))

/-- When the first block survives `dropWhile`, the suffix is untouched. -/
theorem dropWhile_append_of_ne_nil (a b : List Char) (h : a.dropWhile isPyWs ≠ []) :
    (a ++ b).dropWhile isPyWs = a.dropWhile isPyWs ++ b := by
  induction a with
  | nil => simp [List.dropWhile] at h
  | cons c rest ih =>
    by_cases hc : isPyWs c
    · simp only [List.dropWhile_cons, hc, if_true] at h
      simp only [List.cons_append, List.dropWhile_cons, hc, if_true]
      exact ih h
    · simp only [List.cons_append, List.dropWhile_cons, hc, if_false]
      simp [List.dropWhile_cons, hc]

/-- An all-whitespace list is consumed entirely. -/
theorem dropWhile_ws_nil (p : List Char) (hp : ∀ c ∈ p, isPyWs c = true) :
    p.dropWhile isPyWs = [] := by
  have := dropWhile_ws_append p [] hp
  simpa using this

/-- When the first block is consumed entirely, `dropWhile` continues into the
suffix. -/
theorem dropWhile_append_of_nil (a b : List Char) (h : a.dropWhile isPyWs = []) :
    (a ++ b).dropWhile isPyWs = b.dropWhile isPyWs := by
  induction a with
  | nil => rfl
  | cons c rest ih =>
    by_cases hc : isPyWs c
    · simp only [List.dropWhile_cons, hc, if_true] at h
      simp only [List.cons_append, List.dropWhile_cons, hc, if_true]
      exact ih h
    · simp [List.dropWhile_cons, hc] at h

/-- Dropping trailing whitespace ignores an all-whitespace suffix. -/
theorem dropTrailingWs_ws_append (m q : List Char) (hq : ∀ c ∈ q, isPyWs c = true) :
    dropTrailingWs (m ++ q) = dropTrailingWs m := by
  unfold dropTrailingWs
  rw [List.reverse_append]
  rw [dropWhile_ws_append q.reverse m.reverse (fun c hc => hq c (List.mem_reverse.mp hc))]

/-- Stripping removes whitespace padding on both sides. -/
theorem stripList_pad (p t q : List Char)
    (hp : ∀ c ∈ p, isPyWs c = true) (hq : ∀ c ∈ q, isPyWs c = true) :
    stripList (p ++ t ++ q) = stripList t := by
  unfold stripList
  rw [List.append_assoc, dropWhile_ws_append p (t ++ q) hp]
  by_cases h : t.dropWhile isPyWs = []
  · rw [dropWhile_append_of_nil t q h, dropWhile_ws_nil q hq, h]
  · rw [dropWhile_append_of_ne_nil t q h, dropTrailingWs_ws_append _ q hq]

/-- Leading-whitespace removal commutes with lowercasing. -/
theorem dropWhile_map_lower (l : List Char) :
    (l.map pyLowerChar).dropWhile isPyWs = (l.dropWhile isPyWs).map pyLowerChar := by
  induction l with
  | nil => rfl
  | cons c rest ih =>
    simp only [List.map_cons, List.dropWhile_cons, isPyWs_pyLowerChar c]
    by_cases hc : isPyWs c
    · simp only [hc, if_true]
      exact ih
    · simp [hc]

/-- Stripping commutes with lowercasing. -/
theorem stripList_map_lower (l : List Char) :
    stripList (l.map pyLowerChar) = (stripList l).map pyLowerChar := by
  unfold stripList dropTrailingWs
  rw [dropWhile_map_lower]
  rw [← List.map_reverse, dropWhile_map_lower, ← List.map_reverse]

/-- The cache key is invariant under whitespace padding and letter case. -/
theorem pyKey_eq_of_trimCaseEquiv (s1 s2 : String) (h : trimCaseEquiv s1 s2) :
    pyKey s1 = pyKey s2 := by
  obtain ⟨p1, t1, q1, p2, t2, q2, hp1, hq1, hp2, hq2, e1, e2, ht⟩ := h
  unfold pyKey
  rw [e1, e2, stripList_pad p1 t1 q1 hp1 hq1, stripList_pad p2 t2 q2 hp2 hq2]
  have hmap : (stripList t1).map pyLowerChar = (stripList t2).map pyLowerChar := by
    rw [← stripList_map_lower, ht, stripList_map_lower]
  rw [hmap]

/-! ## The claims -/

/-- C1: the claim says `check_birth_city_dawn` never raises across the public
boundary, and in particular that a date string parsing into integers but
denoting an invalid calendar date (month 13) still yields a report.  The code
violates this: with a resolvable city and timezone, `datetime(1991, 13, 1,
10, 0, ...)` at line 358 raises `ValueError` outside every `try` block, so the
evaluation at the failing input produces the escaped exception. -/
theorem C1_invalid_month_value_error :
    check_birth_city_dawn envPenza "01.13.1991" "10:00" "Penza" true =
      .error .valueError ∧
    parseDateTriple "01.13.1991" = some (1, 13, 1991) := by decide

/-- C2: for every malformed date or time string, `check_birth_city_dawn`
returns the bare report carrying the invalid-input error, and the result does
not depend on the environment or the skyfield preference at all — no
geocoding, timezone lookup or dawn computation is performed. -/
theorem C2_invalid_input_report (env envB : Env) (ds ts city : String) (p pB : Bool)
    (h : parseDateTriple ds = none ∨ parseTimePair ts = none) :
    check_birth_city_dawn env ds ts city p = .ok { error := some .invalidInput } ∧
    check_birth_city_dawn env ds ts city p = check_birth_city_dawn envB ds ts city pB := by
  rcases h with h | h
  · constructor <;> simp [check_birth_city_dawn, h]
  · cases hd : parseDateTriple ds with
    | none => constructor <;> simp [check_birth_city_dawn, hd]
    | some v =>
      obtain ⟨d, my⟩ := v
      obtain ⟨m, yv⟩ := my
      constructor <;> simp [check_birth_city_dawn, hd, h]

/-- C2 witness: a dash-separated date is malformed and yields the
invalid-input report in any two environments. -/
theorem C2_witness_malformed_date :
    check_birth_city_dawn envPenza "1991-03-12" "03:25" "Penza" true =
      .ok { error := some .invalidInput } ∧
    check_birth_city_dawn envPenza "1991-03-12" "03:25" "Penza" true =
      check_birth_city_dawn envEmpty "1991-03-12" "03:25" "Penza" false :=
  C2_invalid_input_report envPenza envEmpty "1991-03-12" "03:25" "Penza" true false
    (Or.inl (by decide))

/-- C3 counterexample: the claim says an intentionally omitted (sentinel)
city yields a report with no error code and an unknown verdict; the code
instead reports `geocode_failed` for the sentinel city "unknown", because the
sentinel and the failed-geocode cases are indistinguishable at the
`lat is None` check of line 347. -/
theorem C3_counterexample_sentinel_gets_error :
    check_birth_city_dawn envPenza "12.03.1991" "03:25" "unknown" true =
      .ok { city := some "unknown", error := some .geocodeFailed } ∧
    ({ city := some "unknown", error := some .geocodeFailed } : Report).error ≠ none := by
  decide

/-- C3 amended: whenever `geocode_city` yields an absent latitude or
longitude — whether the city failed to resolve or was the sentinel "no
location provided" input — `check_birth_city_dawn` yields a report with error
code `geocode_failed`; sentinel input receives no distinct no-error outcome. -/
theorem C3_amended_absent_geocode_failed (env : Env) (ds ts city : String) (p : Bool)
    (d m y hh mm : Int)
    (hd : parseDateTriple ds = some (d, m, y)) (ht : parseTimePair ts = some (hh, mm))
    (hg : (geocode_city env.cache env.geolocator city).fst.1 = none ∨
          (geocode_city env.cache env.geolocator city).fst.2.1 = none) :
    check_birth_city_dawn env ds ts city p =
      .ok { city := some city,
            lat := (geocode_city env.cache env.geolocator city).fst.1,
            lon := (geocode_city env.cache env.geolocator city).fst.2.1,
            display_name := (geocode_city env.cache env.geolocator city).fst.2.2,
            error := some .geocodeFailed } := by
  simp only [check_birth_city_dawn, hd, ht]
  rw [if_pos hg]

/-- C3 witness: a city the empty environment cannot resolve yields the
geocode-failed report. -/
theorem C3_witness_unresolved_city :
    check_birth_city_dawn envEmpty "12.03.1991" "03:25" "Nowhereville" true =
      .ok { city := some "Nowhereville", error := some .geocodeFailed } :=
  C3_amended_absent_geocode_failed envEmpty "12.03.1991" "03:25" "Nowhereville" true
    12 3 1991 3 25 (by decide) (by decide) (Or.inl (by decide))

/-- C4 counterexample: the claim says blank (whitespace-only) city input is a
sentinel resolving to absent without touching the cache; the code treats a
single space as a regular city (it is truthy and strips to `""`, which is not
in the sentinel tuple), consults the cache under the empty key — returning a
cached record when one is present — and is not independent of the cache. -/
theorem C4_counterexample_blank_not_sentinel :
    (geocode_city [("", ⟨some 1, some 2, some "X"⟩)] none " " true).fst =
      (some 1, some 2, some "X") ∧
    (geocode_city [] none " " true).fst = (none, none, none) ∧
    isSentinelCity " " = false := by decide

/-- C4 amended: the sentinel set is exactly: the empty string, and strings
whose trimmed lowercased form is "неизвестно", "unknown" or "n/a"; those
inputs resolve to absent with the cache unchanged and with a result
independent of cache, backend and the use_cache flag.  Whitespace-only
non-empty input is not a sentinel. -/
theorem C4_amended_sentinel_set (cache cacheB : List (String × CacheRec))
    (bk bkB : Option Geolocator) (city : String) (uc ucB : Bool)
    (h : isSentinelCity city = true) :
    geocode_city cache bk city uc = ((none, none, none), cache) ∧
    (geocode_city cache bk city uc).fst = (geocode_city cacheB bkB city ucB).fst := by
  constructor <;> simp [geocode_city, h]

/-- C4 witness: a padded upper-case "UNKNOWN" is a sentinel even with a
populated cache and a succeeding backend. -/
theorem C4_witness_unknown_case :
    geocode_city [("unknown", ⟨some 1, some 2, some "X"⟩)]
        (some fun _ => some (9, 9, "Y")) " UNKNOWN " true =
      ((none, none, none), [("unknown", ⟨some 1, some 2, some "X"⟩)]) ∧
    (geocode_city [("unknown", ⟨some 1, some 2, some "X"⟩)]
        (some fun _ => some (9, 9, "Y")) " UNKNOWN " true).fst =
      (geocode_city [] none " UNKNOWN " false).fst :=
  C4_amended_sentinel_set [("unknown", ⟨some 1, some 2, some "X"⟩)] []
    (some fun _ => some (9, 9, "Y")) none " UNKNOWN " true false (by decide)

/-- C5 counterexample: the claim says the widened search still filters for
events whose local calendar date matches the requested date, and widens by
one full day on each side.  Neither holds: the first rising event of the
widened window is returned even when it falls on the previous local day
(here ten minutes before local midnight of the requested day 0), and the
widened bounds are the UTC midnights of the shifted days, which for a +3 h
zone is not one full day beyond the interval edge. -/
theorem C5_counterexample_no_date_filter :
    compute_dawn_skyfield skyNoFilter zoneUTC 53 45 0 "Etc/UTC" = some (-600000000) ∧
    Int.fdiv (-600000000 + effOffset zoneUTC "Etc/UTC") dayU ≠ 0 ∧
    compute_dawn_skyfield skyWindow zoneMsk 53 45 0 "Europe/Moscow" = some 42 ∧
    floorDay (-10800000000 - dayU) ≠ -10800000000 - dayU := by decide

/-- C5 amended: when the narrow local-day search finds no rising event (in
the keyword-signature mode), the search is repeated over a window from UTC
midnight of the day one day before the interval start to UTC midnight of the
day one day after the interval end, and the first rising event found there is
returned with no filtering by local calendar date (falling back to the
twilight-transition scan when there is none). -/
theorem C5_amended_widened_window (sky : SkyEnv) (z : ZoneEnv) (lat lon ld : Int)
    (tzname : String)
    (ha : sky.avail = true) (he : sky.ephOk = true) (hk : sky.sig = .kwarg)
    (hn : firstRising (sky.risings lat lon (ld * dayU - effOffset z tzname)
            (ld * dayU - effOffset z tzname + dayU)) = none) :
    compute_dawn_skyfield sky z lat lon ld tzname =
      (match firstRising (sky.risings lat lon
          (floorDay (ld * dayU - effOffset z tzname - dayU))
          (floorDay (ld * dayU - effOffset z tzname + dayU + dayU))) with
        | some t => some t
        | none => firstCivilTransition none (sky.twilight lat lon
            (floorDay (ld * dayU - effOffset z tzname - dayU))
            (floorDay (ld * dayU - effOffset z tzname + dayU + dayU)))) ∧
    (∀ t, firstRising (sky.risings lat lon
          (floorDay (ld * dayU - effOffset z tzname - dayU))
          (floorDay (ld * dayU - effOffset z tzname + dayU + dayU))) = some t →
       compute_dawn_skyfield sky z lat lon ld tzname = some t) := by
  have hmain : compute_dawn_skyfield sky z lat lon ld tzname =
      (match firstRising (sky.risings lat lon
          (floorDay (ld * dayU - effOffset z tzname - dayU))
          (floorDay (ld * dayU - effOffset z tzname + dayU + dayU))) with
        | some t => some t
        | none => firstCivilTransition none (sky.twilight lat lon
            (floorDay (ld * dayU - effOffset z tzname - dayU))
            (floorDay (ld * dayU - effOffset z tzname + dayU + dayU)))) := by
    simp only [compute_dawn_skyfield, local_midnight_range_utc, ha, he, hk, hn]
    simp
  refine ⟨hmain, ?_⟩
  intro t htt
  rw [hmain, htt]

/-- C5 witness: with an empty narrow stream, the rising event of the widened
window is returned. -/
theorem C5_witness_widened_first_rising :
    compute_dawn_skyfield skyNoFilter zoneUTC 53 45 0 "Etc/UTC" = some (-600000000) :=
  (C5_amended_widened_window skyNoFilter zoneUTC 53 45 0 "Etc/UTC" rfl rfl rfl
      (by decide)).2 (-600000000) (by decide)

/-- C6: when the dawn computation yields instant D, the verdict is exactly
`birth instant ≥ D`: a birth at D gives `was_dawn = true`, one microsecond
before D gives `false`, both in `was_civil_dawn_before` and in the report
`check_birth_city_dawn` assembles on the successful path. -/
theorem C6_verdict_ge_dawn (env : Env) (lat lon : Int) (tzname : String) (p : Bool)
    (D : Int)
    (hD : ∀ ld : Int, compute_civil_dawn env lat lon ld tzname p = some D) :
    (∀ w o : Int, was_civil_dawn_before env (.aware w o) lat lon tzname p =
        (some (decide (w - o ≥ D)), some D)) ∧
    was_civil_dawn_before env (.aware D 0) lat lon tzname p = (some true, some D) ∧
    was_civil_dawn_before env (.aware (D - 1) 0) lat lon tzname p = (some false, some D) ∧
    (∀ (ds ts city : String) (d m y hh mm : Int) (disp : Option String),
      parseDateTriple ds = some (d, m, y) → parseTimePair ts = some (hh, mm) →
      (geocode_city env.cache env.geolocator city).fst = (some lat, some lon, disp) →
      tz_from_coords env.tzfinder lat lon = some tzname → tzname ≠ "" →
      isValidYMD y m d → isValidHM hh mm → env.zone.avail = true →
      check_birth_city_dawn env ds ts city p =
        .ok { city := some city, lat := some lat, lon := some lon, display_name := disp,
              tz := some tzname, birth_dt := some (birthWall y m d hh mm),
              dawn_dt := some D,
              was_dawn := some (decide (birthWall y m d hh mm -
                env.zone.offset tzname ≥ D)) }) := by
  have hcore : ∀ w o : Int, was_civil_dawn_before env (.aware w o) lat lon tzname p =
      (some (decide (w - o ≥ D)), some D) := by
    intro w o
    simp [was_civil_dawn_before, wasDawnCore, hD, PyDateTime.wallDate, PyDateTime.instant]
  refine ⟨hcore, ?_, ?_, ?_⟩
  · rw [hcore D 0]
    simp
  · rw [hcore (D - 1) 0]
    simp
  · intro ds ts city d m y hh mm disp hd ht hg htz hne hv1 hv2 hz
    simp only [check_birth_city_dawn, hd, ht, hg]
    rw [if_neg (by simp)]
    simp only [Option.getD_some, htz]
    rw [if_neg (by simp [hne])]
    rw [if_pos ⟨hv1, hv2⟩]
    simp only [Option.getD_some, hD]
    simp [hz]

/-- C6 witness: with a constant dawn oracle reporting instant 1000, a birth
at 1000 is at-or-after dawn and a birth at 999 is before dawn. -/
theorem C6_witness_boundary :
    was_civil_dawn_before envPenzaDawn (.aware 1000 0) 53 45 "Europe/Moscow" true =
      (some true, some 1000) ∧
    was_civil_dawn_before envPenzaDawn (.aware (1000 - 1) 0) 53 45 "Europe/Moscow" true =
      (some false, some 1000) :=
  ⟨(C6_verdict_ge_dawn envPenzaDawn 53 45 "Europe/Moscow" true 1000 (fun _ => rfl)).2.1,
   (C6_verdict_ge_dawn envPenzaDawn 53 45 "Europe/Moscow" true 1000 (fun _ => rfl)).2.2.1⟩

/-- C7 counterexample: the claim says that whenever the normalized key is in
the cache the cached record is returned; but for a sentinel city string
("unknown") whose key is present in the cache, `geocode_city` returns the
absent triple, not the cached record — the sentinel check precedes the cache
lookup. -/
theorem C7_counterexample_sentinel_key_hit :
    lookupRec [("unknown", ⟨some 1, some 2, some "X"⟩)] (pyKey "unknown") =
      some ⟨some 1, some 2, some "X"⟩ ∧
    (geocode_city [("unknown", ⟨some 1, some 2, some "X"⟩)] none "unknown" true).fst =
      (none, none, none) := by decide

/-- C7 amended: the cache key is the trimmed lowercased city string, so any
two city strings equal up to leading/trailing whitespace and letter case
yield the same key; and for every non-sentinel city whose key is present in
the cache, `geocode_city` returns the cached record's fields with the cache
unchanged and with no dependence on the backend.  Sentinel inputs return
absent before the cache is consulted. -/
theorem C7_amended_normalized_cache_hit :
    (∀ s1 s2 : String, trimCaseEquiv s1 s2 → pyKey s1 = pyKey s2) ∧
    (∀ (cache : List (String × CacheRec)) (bk bkB : Option Geolocator)
        (city : String) (rec : CacheRec),
      isSentinelCity city = false → lookupRec cache (pyKey city) = some rec →
      geocode_city cache bk city true = ((rec.lat, rec.lon, rec.display_name), cache) ∧
      geocode_city cache bk city true = geocode_city cache bkB city true) := by
  refine ⟨pyKey_eq_of_trimCaseEquiv, ?_⟩
  intro cache bk bkB city rec hs hrec
  constructor <;> simp [geocode_city, hs, hrec]

/-- C7 witness: " PENZA " and "penza" share one key, and a cached "Penza"
resolves from the cache with no backend. -/
theorem C7_witness_normalization_and_hit :
    pyKey " PENZA " = pyKey "penza" ∧
    geocode_city [("penza", ⟨some 53, some 45, some "Penza, Russia"⟩)] none "Penza" true =
      ((some 53, some 45, some "Penza, Russia"),
        [("penza", ⟨some 53, some 45, some "Penza, Russia"⟩)]) :=
  ⟨C7_amended_normalized_cache_hit.1 " PENZA " "penza"
      ⟨[' '], "PENZA".data, [' '], [], "penza".data, [],
        by decide, by decide, by decide, by decide, by decide, by decide, by decide⟩,
    (C7_amended_normalized_cache_hit.2 [("penza", ⟨some 53, some 45, some "Penza, Russia"⟩)]
        none none "Penza" ⟨some 53, some 45, some "Penza, Russia"⟩
        (by decide) (by decide)).1⟩

/-- C8: `tz_from_coords` tries the exact polygon lookup first, falls back to
the nearest-timezone lookup only when the exact lookup yields no match, and
is absent exactly when the resolver is unavailable or both lookups yield
nothing; the embedding is a total function, matching the source's
catch-everything policy. -/
theorem C8_tz_fallback_policy (tf : Option TzFinder) (lat lon : Int) :
    (tf = none → tz_from_coords tf lat lon = none) ∧
    (∀ f t, tf = some f → f.timezone_at lat lon = some t →
      tz_from_coords tf lat lon = some t) ∧
    (∀ f, tf = some f → f.timezone_at lat lon = none →
      tz_from_coords tf lat lon = f.closest_timezone_at lat lon) ∧
    (tz_from_coords tf lat lon = none ↔
      tf = none ∨ ∃ f, tf = some f ∧ f.timezone_at lat lon = none ∧
        f.closest_timezone_at lat lon = none) := by
  cases tf with
  | none => simp [tz_from_coords]
  | some f =>
    refine ⟨by simp, ?_, ?_, ?_⟩
    · intro f' t hf ht
      cases hf
      simp [tz_from_coords, ht]
    · intro f' hf ht
      cases hf
      simp [tz_from_coords, ht]
    · cases hx : f.timezone_at lat lon with
      | some t => simp [tz_from_coords, hx]
      | none =>
        cases hc : f.closest_timezone_at lat lon with
        | some t => simp [tz_from_coords, hx, hc]
        | none => simp [tz_from_coords, hx, hc]

/-- C8 witness: an exact match is returned as-is. -/
theorem C8_witness_exact_match :
    tz_from_coords (some tfPenza) 53 45 = some "Europe/Moscow" :=
  (C8_tz_fallback_policy (some tfPenza) 53 45).2.1 tfPenza "Europe/Moscow" rfl rfl

/-- C9: beyond the spec's listed sentinels, any city whose trimmed lowercased
form is "n/a" also resolves to the absent triple with the cache unchanged and
with no dependence on cache, backend or the use_cache flag. -/
theorem C9_na_sentinel (cache cacheB : List (String × CacheRec))
    (bk bkB : Option Geolocator) (city : String) (uc ucB : Bool)
    (h : pyKey city = "n/a") :
    geocode_city cache bk city uc = ((none, none, none), cache) ∧
    (geocode_city cache bk city uc).fst = (geocode_city cacheB bkB city ucB).fst := by
  have hs : isSentinelCity city = true := by simp [isSentinelCity, h]
  constructor <;> simp [geocode_city, hs]

/-- C9 witness: " N/A " is a sentinel even with a matching cache entry and a
succeeding backend. -/
theorem C9_witness_na_trimmed :
    geocode_city [("n/a", ⟨some 1, some 2, some "X"⟩)]
        (some fun _ => some (9, 9, "Y")) " N/A " true =
      ((none, none, none), [("n/a", ⟨some 1, some 2, some "X"⟩)]) ∧
    (geocode_city [("n/a", ⟨some 1, some 2, some "X"⟩)]
        (some fun _ => some (9, 9, "Y")) " N/A " true).fst =
      (geocode_city [] none " N/A " false).fst :=
  C9_na_sentinel [("n/a", ⟨some 1, some 2, some "X"⟩)] []
    (some fun _ => some (9, 9, "Y")) none " N/A " true false (by decide)

/-- C10: a cache hit returns exactly the cached record's fields (missing
fields as absent) with the cache unchanged, independent of the backend; when
the record lacks a coordinate, the pipeline therefore reports
`geocode_failed` even though the live backend might resolve the city. -/
theorem C10_cache_shadowing (env : Env) (rec : CacheRec) (ds ts city : String)
    (p : Bool) (d m y hh mm : Int)
    (hs : isSentinelCity city = false)
    (hrec : lookupRec env.cache (pyKey city) = some rec)
    (hmiss : rec.lat = none ∨ rec.lon = none)
    (hd : parseDateTriple ds = some (d, m, y)) (ht : parseTimePair ts = some (hh, mm)) :
    geocode_city env.cache env.geolocator city =
      ((rec.lat, rec.lon, rec.display_name), env.cache) ∧
    (∀ bkB, geocode_city env.cache bkB city = geocode_city env.cache env.geolocator city) ∧
    check_birth_city_dawn env ds ts city p =
      .ok { city := some city, lat := rec.lat, lon := rec.lon,
            display_name := rec.display_name, error := some .geocodeFailed } := by
  have hgc : geocode_city env.cache env.geolocator city =
      ((rec.lat, rec.lon, rec.display_name), env.cache) := by
    simp [geocode_city, hs, hrec]
  refine ⟨hgc, ?_, ?_⟩
  · intro bkB
    rw [hgc]
    simp [geocode_city, hs, hrec]
  · simp only [check_birth_city_dawn, hd, ht, hgc]
    rw [if_pos hmiss]

/-- C10 witness: a cached record without coordinates makes the pipeline
report geocode-failed although the environment's backend would resolve the
city. -/
theorem C10_witness_missing_coords :
    geocode_city envBrokenRec.cache envBrokenRec.geolocator "Penza" =
      ((none, none, some "broken"), envBrokenRec.cache) ∧
    check_birth_city_dawn envBrokenRec "12.03.1991" "03:25" "Penza" true =
      .ok { city := some "Penza", lat := none, lon := none,
            display_name := some "broken", error := some .geocodeFailed } :=
  ⟨(C10_cache_shadowing envBrokenRec ⟨none, none, some "broken"⟩ "12.03.1991" "03:25"
      "Penza" true 12 3 1991 3 25 (by decide) (by decide) (Or.inl rfl)
      (by decide) (by decide)).1,
   (C10_cache_shadowing envBrokenRec ⟨none, none, some "broken"⟩ "12.03.1991" "03:25"
      "Penza" true 12 3 1991 3 25 (by decide) (by decide) (Or.inl rfl)
      (by decide) (by decide)).2.2⟩

end SunCalc
